import Mathlib

/-!
Verification of the resource loader in `lucid/misc/io/loading.py`.

The loader takes a location (a URL string or an already open handle),
derives a file extension, dispatches to a registered decoder, retrieves
bytes through an external cache-aware retrieval layer (`read_handle`),
and on corruption-symptomatic decode errors purges the cache and retries
exactly once.

External collaborators (the retrieval bridge `read_handle` and the
concrete decoder bodies: PIL, numpy, json, protobuf) are modelled as an
environment of pluggable functions; the orchestration code of
`loading.py` itself is embedded faithfully below.
-/

namespace Loading

/-- Python exception classes relevant to `loading.py`.
`decodeError` models `google.protobuf.message.DecodeError`,
`valueError` models `ValueError` (and its subclasses),
`keyError` models `KeyError`, `typeError` models `TypeError`,
`runtimeError` carries the message of a `RuntimeError`,
`notImplError` carries the message of a `NotImplementedError`,
and `other` stands for any further exception class a decoder or the
bridge may raise. -/
inductive PyErr where
  | decodeError
  | valueError
  | keyError
  | typeError
  | runtimeError (msg : String)
  | notImplError (msg : String)
  | other (name : String)
deriving DecidableEq, Repr

/-- The exception filter of `except (DecodeError, ValueError)` in
`load_using_loader` (line 165): true exactly for the two
corruption-symptomatic classes. -/
def isCorruption : PyErr → Bool
  | .decodeError => true
  | .valueError => true
  | _ => false

/-- The exception filter of `except KeyError` in `load` (line 140). -/
def isKeyError : PyErr → Bool
  | .keyError => true
  | _ => false

/-- The `cache` argument threaded to `read_handle`.
`useExisting` models the default `None` (use a cached copy when present),
`purge` models the literal string passed on the retry
(`read_handle(url, cache='purge')`), and `bypass` models any other
directive value a caller could pass to the external bridge. -/
inductive Cache where
  | useExisting
  | purge
  | bypass
deriving DecidableEq, Repr

/-- An open readable stream with an associated `.name` attribute.
`token` abstracts the identity of the underlying byte stream. -/
structure Handle where
  name : String
  token : Nat
deriving DecidableEq, Repr

/-- The `url_or_handle` argument: either a URL string or an object that
`is_handle` recognises (has `read` and `name`). -/
inductive Location where
  | url (s : String)
  | handle (h : Handle)
deriving DecidableEq, Repr

/-- `is_handle(url_or_handle)` (lines 174-175): in the embedding the
duck-typed attribute probe becomes a match on the tagged sum. -/
def is_handle : Location → Bool
  | .url _ => false
  | .handle _ => true

/-- Identifiers for the five decoder functions of the module
(`_load_img`, `_load_npy`, `_load_json`, `_load_text`,
`_load_graphdef_protobuf`). Their bodies are external collaborators;
the environment assigns each identifier a behaviour. -/
inductive LoaderId where
  | img
  | npy
  | json
  | text
  | graphdef
deriving DecidableEq, Repr

/-- Observable events of one `load` call: `fetch` records a call to the
retrieval bridge `read_handle` with its `cache` directive, `dec` records
an invocation of a decoder on a handle. -/
inductive Ev where
  | fetch (loc : Location) (c : Cache)
  | dec (L : LoaderId) (h : Handle)
deriving DecidableEq, Repr

/-- The external collaborators, parametric in the decoded value type `V`
and the decoder-option type `O` (the `**kwargs`):
`bridge` is `read_handle` (it may itself raise), `decode` gives each
decoder identifier its behaviour on a handle and options, and
`defaultOpts` is the option record a decoder sees when invoked with no
keyword arguments (as in the fallback `_load_img(handle)`). -/
structure Env (V O : Type) where
  bridge : Location → Cache → Except PyErr Handle
  decode : LoaderId → Handle → O → Except PyErr V
  defaultOpts : O

/-- Last index of character `c` in a character list (Python
`str.rfind`), or `none`. -/
def lastIndexOf (c : Char) : List Char → Option Nat
  | [] => none
  | a :: t =>
    match lastIndexOf c t with
    | some i => some (i + 1)
    | none => if a = c then some 0 else none

/-- The extension part of `os.path.splitext` (posix): the suffix from
the last dot onward, provided that dot lies after the last separator and
is not part of a run of leading dots of the base name; otherwise the
empty string. -/
def splitextExt (s : String) : String :=
  let cs := s.data
  let sepIndex : Int := match lastIndexOf '/' cs with | some i => (i : Int) | none => -1
  let dotIndex : Int := match lastIndexOf '.' cs with | some i => (i : Int) | none => -1
  if sepIndex < dotIndex then
    -- the characters of the base name strictly before the last dot
    let lead := (cs.drop (sepIndex + 1).toNat).take (dotIndex - sepIndex - 1).toNat
    if lead.any (fun a => a ≠ '.') then String.mk (cs.drop dotIndex.toNat)
    else ""
  else ""

/-- The error raised by `get_extension` when `splitext` yields no
extension. For a URL string this is
`RuntimeError("No extension in URL: " + url_or_handle)`; for a handle,
evaluating that very concatenation of a string with a non-string raises
`TypeError` before the `RuntimeError` is constructed. -/
def noExtensionError : Location → PyErr
  | .url u => .runtimeError ("No extension in URL: " ++ u)
  | .handle _ => .typeError

/-- `get_extension(url_or_handle)` (lines 178-185). -/
def get_extension (loc : Location) : Except PyErr String :=
  let name := match loc with
    | .handle h => h.name
    | .url u => u
  let ext := splitextExt name
  if ext = "" then .error (noExtensionError loc) else .ok ext

/-- The module-level `loaders` dict (lines 107-117), as an association
list from extension to decoder identifier, in source order. -/
def loaders : List (String × LoaderId) :=
  [(".png", .img), (".jpg", .img), (".jpeg", .img),
   (".npy", .npy), (".npz", .npy),
   (".json", .json),
   (".txt", .text), (".md", .text),
   (".pb", .graphdef)]

/-- `loaders[ext]` lookup: `some` decoder or `none` (a `KeyError` in the
source). -/
def lookupLoader (ext : String) : Option LoaderId :=
  (loaders.find? (fun p => p.1 == ext)).map (·.2)

/-- `ext.lower()`: character-wise case folding (extension tags are
ASCII, so ASCII folding coincides with Python `str.lower`). -/
def strLower (s : String) : String := String.mk (s.data.map Char.toLower)

/-- Python `str.format` restricted to the auto-numbered replacement
fields this module uses: each occurrence of an opening brace followed
directly by a closing brace is replaced by the next positional argument;
all other characters are copied. A template containing no brace is
returned unchanged, whatever arguments are supplied. -/
def pyFormatChars : List Char → List String → List Char
  | [], _ => []
  | c1 :: c2 :: rest, a :: args =>
    if c1 = Char.ofNat 123 ∧ c2 = Char.ofNat 125 then a.data ++ pyFormatChars rest args
    else c1 :: pyFormatChars (c2 :: rest) (a :: args)
  | c :: rest, args => c :: pyFormatChars rest args

/-- String version of `pyFormatChars`. -/
def pyFormat (s : String) (args : List String) : String :=
  String.mk (pyFormatChars s.data args)

/-- `str(x)` for a location as it would appear in a formatted message:
the string itself, or a printable form of a handle. (Never actually
used: the template it is passed to contains no replacement field.) -/
def displayLoc : Location → String
  | .url u => u
  | .handle h => "<handle " ++ h.name ++ ">"

/-- `str` of a single quote character, to build the Python repr of the
key list without embedding quote characters in source literals. -/
def sq : String := String.mk [Char.ofNat 39]

/-- `str(list(loaders))`: the Python repr of the list of registered
extensions, e.g. a bracketed, comma-separated, quoted key list. -/
def loadersKeysRepr : String :=
  "[" ++ String.intercalate ", " (loaders.map (fun p => sq ++ p.1 ++ sq)) ++ "]"

/-- The message template of `load`'s fallback failure (line 148). Note
it uses percent-style placeholders (suitable for the logging call) while
the raise applies `str.format` to it. -/
def unsupportedTemplate : String :=
  "Could not load resource %s as image. Supported extensions: %s"

/-- The argument of `raise RuntimeError(message.format(url_or_handle,
list(loaders)))` (line 150). -/
def unsupportedMessage (loc : Location) : String :=
  pyFormat unsupportedTemplate [displayLoc loc, loadersKeysRepr]

/-- The `is_handle` branch of `load_using_loader` (line 159): invoke the
decoder directly on the handle; any error propagates. Also the shape of
the recursive `load_using_loader(handle, loader, cache, **kwargs)` call
on the retry path, whose argument is always a handle. -/
def decodeDirect {V O : Type} (env : Env V O) (L : LoaderId) (opts : O) (h : Handle) :
    Except PyErr V × List Ev :=
  (env.decode L h opts, [.dec L h])

/-- The body of the `except (DecodeError, ValueError)` handler of
`load_using_loader` (lines 166-171): `read_handle(url, cache='purge')`,
then the recursive `load_using_loader` call on the fresh handle — which,
being a handle, is exactly `decodeDirect`. Errors raised here are not
caught again. -/
def retryOnce {V O : Type} (env : Env V O) (L : LoaderId) (opts : O) (u : String) :
    Except PyErr V × List Ev :=
  match env.bridge (.url u) .purge with
  | .error e => (.error e, [.fetch (.url u) .purge])
  | .ok h =>
    let p := decodeDirect env L opts h
    (p.1, .fetch (.url u) .purge :: p.2)

/-- `load_using_loader(url_or_handle, loader, cache, **kwargs)`
(lines 157-171). For a handle, decode directly. For a URL, fetch via
the bridge with the given cache directive and decode; the
`try ... except (DecodeError, ValueError)` covers both the fetch and the
decode, and on a corruption-symptomatic error purges and retries once.
The pair's second component is the trace of bridge fetches and decoder
invocations, in order. -/
def load_using_loader {V O : Type} (env : Env V O) (L : LoaderId) (cache : Cache)
    (opts : O) : Location → Except PyErr V × List Ev
  | .handle h => decodeDirect env L opts h
  | .url u =>
    match env.bridge (.url u) cache with
    | .error e =>
      if isCorruption e then
        let p := retryOnce env L opts u
        (p.1, .fetch (.url u) cache :: p.2)
      else (.error e, [.fetch (.url u) cache])
    | .ok h =>
      match env.decode L h opts with
      | .ok v => (.ok v, [.fetch (.url u) cache, .dec L h])
      | .error e =>
        if isCorruption e then
          let p := retryOnce env L opts u
          (p.1, .fetch (.url u) cache :: .dec L h :: p.2)
        else (.error e, [.fetch (.url u) cache, .dec L h])

/-- The body of `load`'s `except KeyError` handler (lines 140-152):
`read_handle(url_or_handle, cache=cache)` — note the original location,
handle or not, goes to the bridge — then `_load_img(handle)` with no
keyword arguments, i.e. default options. Any exception from either step
is swallowed and `RuntimeError(message.format(..))` is raised instead;
on success the decoded value is returned. -/
def fallbackLoad {V O : Type} (env : Env V O) (loc : Location) (cache : Cache) :
    Except PyErr V × List Ev :=
  match env.bridge loc cache with
  | .error _ => (.error (.runtimeError (unsupportedMessage loc)), [.fetch loc cache])
  | .ok h =>
    match env.decode .img h env.defaultOpts with
    | .ok v => (.ok v, [.fetch loc cache, .dec .img h])
    | .error _ =>
      (.error (.runtimeError (unsupportedMessage loc)), [.fetch loc cache, .dec .img h])

/-- `load(url_or_handle, cache=None, **kwargs)` (lines 120-152).
`get_extension` runs outside the `try`; the `try ... except KeyError`
block encloses both the `loaders[ext.lower()]` lookup and the whole
`load_using_loader` call, so a `KeyError` raised by a decoder is also
caught and routed to the image fallback. -/
def load {V O : Type} (env : Env V O) (loc : Location) (cache : Cache) (opts : O) :
    Except PyErr V × List Ev :=
  match get_extension loc with
  | .error e => (.error e, [])
  | .ok ext =>
    match lookupLoader (strLower ext) with
    | none => fallbackLoad env loc cache
    | some L =>
      let p := load_using_loader env L cache opts loc
      match p.1 with
      | .ok v => (.ok v, p.2)
      | .error e =>
        if isKeyError e then
          let f := fallbackLoad env loc cache
          (f.1, p.2 ++ f.2)
        else (.error e, p.2)

/-- The cache directives of the bridge fetches of a trace, in order. -/
def fetchDirectives : List Ev → List Cache
  | [] => []
  | .fetch _ c :: t => c :: fetchDirectives t
  | .dec _ _ :: t => fetchDirectives t

/-- A numpy ndarray over element type `α`: a shape and the row-major
flat data. Well-formed when `data.length = shape.prod`. -/
structure NDArray (α : Type) where
  shape : List Nat
  data : List α
deriving DecidableEq, Repr

/-- `np.expand_dims(a, axis=2)` for a rank-2 array: a trailing unit axis
is appended; the row-major data is unchanged. -/
def expandDims2 {α : Type} (a : NDArray α) : NDArray α :=
  ⟨a.shape ++ [1], a.data⟩

/-- `np.repeat(b, 3, axis=2)` for an array whose axis 2 is its last axis
and has size 1: that axis becomes size 3 and, the repeated axis being
the fastest-varying one, each element appears three times consecutively
in the row-major data. -/
def repeat3LastUnit {α : Type} (b : NDArray α) : NDArray α :=
  ⟨b.shape.dropLast ++ [3], b.data.flatMap (fun v => [v, v, v])⟩

/-- The message template of `_load_img`'s rank failure (line 77),
with its one brace-pair replacement field. -/
def rankMessageTemplate : String :=
  "Loaded image has more dimensions than expected: \x7b\x7d"

/-- The rank-dispatch tail of `_load_img` (lines 71-78), applied to the
decoded, normalized ndarray (the PIL decode and the dtype division
above it are external collaborators): rank 3 is returned as is, rank 2
is broadcast to three channels, any other rank raises
`NotImplementedError`. -/
def load_img_rank {α : Type} (ndimage : NDArray α) : Except PyErr (NDArray α) :=
  let rank := ndimage.shape.length
  if rank = 3 then .ok ndimage
  else if rank = 2 then .ok (repeat3LastUnit (expandDims2 ndimage))
  else .error (.notImplError (pyFormat rankMessageTemplate [toString rank]))

/-! ### Shared lemmas -/

lemma corruption_not_keyError (e : PyErr) (h : isCorruption e = true) :
    isKeyError e = false := by
  cases e <;> simp_all [isCorruption, isKeyError]

lemma fetchDirectives_append (t1 t2 : List Ev) :
    fetchDirectives (t1 ++ t2) = fetchDirectives t1 ++ fetchDirectives t2 := by
  induction t1 with
  | nil => rfl
  | cons e t ih => cases e <;> simp [fetchDirectives, ih]

/-- The fetch directives of one `load_using_loader` call: none for a
handle; otherwise the given directive, followed by `purge` exactly when
the corruption-retry fires. -/
lemma load_using_loader_fetches {V O : Type} (env : Env V O) (L : LoaderId)
    (c : Cache) (opts : O) (loc : Location) :
    fetchDirectives (load_using_loader env L c opts loc).2 = [] ∨
    fetchDirectives (load_using_loader env L c opts loc).2 = [c] ∨
    fetchDirectives (load_using_loader env L c opts loc).2 = [c, .purge] := by
  cases loc with
  | handle h => left; rfl
  | url u =>
    cases hb : env.bridge (.url u) c with
    | error e =>
      cases hc : isCorruption e with
      | false => right; left; simp [load_using_loader, hb, hc, fetchDirectives]
      | true =>
        cases hb2 : env.bridge (.url u) .purge with
        | error e2 =>
          right; right
          simp [load_using_loader, hb, hc, retryOnce, hb2, fetchDirectives]
        | ok h2 =>
          right; right
          simp [load_using_loader, hb, hc, retryOnce, hb2, decodeDirect, fetchDirectives]
    | ok h =>
      cases hd : env.decode L h opts with
      | ok v => right; left; simp [load_using_loader, hb, hd, fetchDirectives]
      | error e =>
        cases hc : isCorruption e with
        | false => right; left; simp [load_using_loader, hb, hd, hc, fetchDirectives]
        | true =>
          cases hb2 : env.bridge (.url u) .purge with
          | error e2 =>
            right; right
            simp [load_using_loader, hb, hd, hc, retryOnce, hb2, fetchDirectives]
          | ok h2 =>
            right; right
            simp [load_using_loader, hb, hd, hc, retryOnce, hb2, decodeDirect,
              fetchDirectives]

/-- The image fallback performs exactly one fetch, with the current
directive. -/
lemma fallbackLoad_fetches {V O : Type} (env : Env V O) (loc : Location) (c : Cache) :
    fetchDirectives (fallbackLoad env loc c).2 = [c] := by
  cases hb : env.bridge loc c with
  | error e => simp [fallbackLoad, hb, fetchDirectives]
  | ok h =>
    cases hd : env.decode .img h env.defaultOpts with
    | ok v => simp [fallbackLoad, hb, hd, fetchDirectives]
    | error e => simp [fallbackLoad, hb, hd, fetchDirectives]

/-- Element lookup in a three-fold consecutive replication. -/
lemma flatMap_rep3_getElem {α : Type} (l : List α) (j c : Nat) (hc : c < 3) :
    (l.flatMap (fun v => [v, v, v]))[3 * j + c]? = l[j]? := by
  induction l generalizing j with
  | nil => simp
  | cons a t ih =>
    cases j with
    | zero => interval_cases c <;> simp [List.flatMap_cons]
    | succ j =>
      have h3 : 3 * (j + 1) + c = (3 * j + c) + 3 := by ring
      rw [h3, List.flatMap_cons, List.getElem?_append_right (by simp)]
      simp [ih]

/-! ### Concrete environments used by witnesses and counterexamples -/

/-- A stub bridge that always yields the same handle, with every decoder
raising `ValueError` (corruption-symptomatic) on every invocation. -/
def envCorrupt : Env Nat Unit :=
  ⟨fun _ _ => .ok ⟨"s", 0⟩, fun _ _ _ => .error .valueError, ()⟩

/-- A stub bridge with a decoder family in which the array decoder
raises `KeyError` (a non-corruption-symptomatic error) on every call and
the image decoder succeeds with value 7. -/
def envKeyErr : Env Nat Unit :=
  ⟨fun _ _ => .ok ⟨"s", 0⟩,
   fun L _ _ => match L with
     | .npy => .error .keyError
     | .img => .ok 7
     | _ => .ok 0,
   ()⟩

/-- A stub bridge whose image decoder always fails (with an error that
is neither corruption-symptomatic nor a key error). -/
def envBadImg : Env Nat Unit :=
  ⟨fun _ _ => .ok ⟨"s", 0⟩, fun _ _ _ => .error (.other "OSError"), ()⟩

/-- A stub environment whose decoders all succeed. -/
def envOk : Env Nat Unit :=
  ⟨fun _ _ => .ok ⟨"s", 0⟩, fun _ _ _ => .ok 0, ()⟩

/-- A stub environment whose image decoder raises the rank-4
`NotImplementedError` of `_load_img` on every call. -/
def envRank4 : Env Nat Unit :=
  ⟨fun _ _ => .ok ⟨"s", 0⟩,
   fun _ _ _ => .error (.notImplError "Loaded image has more dimensions than expected: 4"),
   ()⟩

/-- A stub environment over boolean decoder options whose decoders
return a value that depends on the options they receive. -/
def envOptSensitive : Env Nat Bool :=
  ⟨fun _ _ => .ok ⟨"s", 0⟩, fun _ _ o => .ok (cond o 1 2), false⟩

/-! ### Claims -/

/-- Claim C1: for a string location whose registered decoder raises a
corruption-symptomatic error (protobuf `DecodeError` or `ValueError`)
on every invocation, `load` (called with the default use-existing
directive) performs exactly two retrieval attempts — the first with the
use-existing directive, the second with force-purge-then-fetch — and
propagates the error of the second attempt unmodified; the trace shows
no third fetch. -/
theorem load_retry_bound_corruption {V O : Type} (env : Env V O) (u : String)
    (ext : String) (L : LoaderId) (opts : O)
    (hE : get_extension (.url u) = .ok ext)
    (hL : lookupLoader (strLower ext) = some L)
    (hB : ∀ l c, ∃ h, env.bridge l c = .ok h)
    (hD : ∀ h o, ∃ e, env.decode L h o = .error e ∧ isCorruption e = true) :
    ∃ h1 e1 h2 e2,
      env.bridge (.url u) .useExisting = .ok h1 ∧
      env.decode L h1 opts = .error e1 ∧
      env.bridge (.url u) .purge = .ok h2 ∧
      env.decode L h2 opts = .error e2 ∧
      load env (.url u) .useExisting opts =
        (.error e2,
         [.fetch (.url u) .useExisting, .dec L h1, .fetch (.url u) .purge, .dec L h2]) := by
  obtain ⟨h1, hb1⟩ := hB (.url u) .useExisting
  obtain ⟨e1, hd1, hc1⟩ := hD h1 opts
  obtain ⟨h2, hb2⟩ := hB (.url u) .purge
  obtain ⟨e2, hd2, hc2⟩ := hD h2 opts
  refine ⟨h1, e1, h2, e2, hb1, hd1, hb2, hd2, ?_⟩
  have hk2 := corruption_not_keyError e2 hc2
  simp [load, hE, hL, load_using_loader, hb1, hd1, hc1, retryOnce, hb2, decodeDirect,
    hd2, hk2]

/-- Witness for C1 at a concrete stub environment and location. -/
theorem load_retry_bound_corruption_witness :
    ∃ h1 e1 h2 e2,
      envCorrupt.bridge (.url "a.npy") .useExisting = .ok h1 ∧
      envCorrupt.decode .npy h1 () = .error e1 ∧
      envCorrupt.bridge (.url "a.npy") .purge = .ok h2 ∧
      envCorrupt.decode .npy h2 () = .error e2 ∧
      load envCorrupt (.url "a.npy") .useExisting () =
        (.error e2,
         [.fetch (.url "a.npy") .useExisting, .dec .npy h1,
          .fetch (.url "a.npy") .purge, .dec .npy h2]) :=
  load_retry_bound_corruption envCorrupt "a.npy" ".npy" .npy ()
    rfl rfl (fun _ _ => ⟨⟨"s", 0⟩, rfl⟩) (fun _ _ => ⟨.valueError, rfl, rfl⟩)

/-- Claim C2, evaluated at its failing input: the `.npy` decoder raises
`KeyError` — an error that is neither a protobuf `DecodeError` nor a
`ValueError` — on its single invocation, yet `load` does not propagate
it after one retrieval: the `try/except KeyError` of `load` (whose
handler is meant for the registry lookup) catches the decoder's
`KeyError` and runs the image fallback, performing a second retrieval
attempt and returning the fallback value instead of raising. -/
theorem load_keyError_second_fetch :
    load envKeyErr (.url "a.npy") .useExisting () =
      (.ok 7,
       [.fetch (.url "a.npy") .useExisting, .dec .npy ⟨"s", 0⟩,
        .fetch (.url "a.npy") .useExisting, .dec .img ⟨"s", 0⟩]) := rfl

/-- Claim C3, evaluated at the two kinds of extensionless locations: for a
URL string, `load` raises the no-extension `RuntimeError` with an empty
bridge trace (no retrieval, no retry); for a handle whose name has no
extension, an error is still raised before any bridge call, but it is a
`TypeError` — `"No extension in URL: " + url_or_handle` concatenates a
string with a non-string — not the no-extension error the claim names. -/
theorem load_no_extension_behavior :
    load envOk (.url "data") .useExisting () =
      (.error (.runtimeError ("No extension in URL: " ++ "data")), []) ∧
    load envOk (.handle ⟨"data", 0⟩) .useExisting () = (.error .typeError, []) :=
  ⟨rfl, rfl⟩

/-- Claim C4, evaluated at its failing input: `.npz` is a registered tag
mapped to the array decoder, yet when that decoder raises `KeyError`
the fallback image decoder is invoked as well for this recognized tag
(second `dec` event with the image decoder). -/
theorem load_recognized_tag_fallback_decoder_invoked :
    lookupLoader (strLower ".npz") = some .npy ∧
    load envKeyErr (.url "model.npz") .useExisting () =
      (.ok 7,
       [.fetch (.url "model.npz") .useExisting, .dec .npy ⟨"s", 0⟩,
        .fetch (.url "model.npz") .useExisting, .dec .img ⟨"s", 0⟩]) :=
  ⟨rfl, rfl⟩

/-- Claim C5, evaluated at its failing input: for an unrecognized tag whose
fallback image decode fails, the raised `RuntimeError` carries the raw
template — `message.format(url_or_handle, list(loaders))` applies
`str.format` to a template whose placeholders are percent-style, so
nothing is substituted and the message names neither the location nor
the registered tags. The rest of the claim is visible in the trace: one
fetch with the current directive, no purge retry. -/
theorem load_unsupported_message_unformatted :
    load envBadImg (.url "b.bin") .useExisting () =
      (.error (.runtimeError "Could not load resource %s as image. Supported extensions: %s"),
       [.fetch (.url "b.bin") .useExisting, .dec .img ⟨"s", 0⟩]) := rfl

/-- Claim C6, evaluated at its failing input: a handle whose decoder raises
`KeyError`. Instead of the error propagating unchanged with the handle
never reaching the retrieval layer, `load`'s `except KeyError` handler
passes the handle itself to `read_handle` (a `fetch` event on the
handle location) and returns the image fallback's value. -/
theorem load_handle_keyError_reaches_bridge :
    load envKeyErr (.handle ⟨"weights.npy", 7⟩) .useExisting () =
      (.ok 7,
       [.dec .npy ⟨"weights.npy", 7⟩,
        .fetch (.handle ⟨"weights.npy", 7⟩) .useExisting,
        .dec .img ⟨"s", 0⟩]) := rfl

/-- Claim C7: for a top-level `load` call with the default use-existing
directive, the list of directives sent to the retrieval bridge is one
of five shapes. In every shape the first fetch carries use-existing,
force-purge-then-fetch occurs only as the second fetch (the single
corruption retry), and no directive other than these two is ever sent.
(The two-use-existing shapes are the image-fallback paths, which fetch
with the current, unmodified directive.) -/
theorem load_cache_directive_trace {V O : Type} (env : Env V O) (loc : Location)
    (opts : O) :
    fetchDirectives (load env loc .useExisting opts).2 = [] ∨
    fetchDirectives (load env loc .useExisting opts).2 = [.useExisting] ∨
    fetchDirectives (load env loc .useExisting opts).2 = [.useExisting, .purge] ∨
    fetchDirectives (load env loc .useExisting opts).2 = [.useExisting, .useExisting] ∨
    fetchDirectives (load env loc .useExisting opts).2 =
      [.useExisting, .purge, .useExisting] := by
  cases hE : get_extension loc with
  | error e => left; simp [load, hE, fetchDirectives]
  | ok ext =>
    cases hL : lookupLoader (strLower ext) with
    | none => right; left; simp [load, hE, hL, fallbackLoad_fetches]
    | some L =>
      have hf := load_using_loader_fetches env L .useExisting opts loc
      rcases hq : load_using_loader env L .useExisting opts loc with ⟨r, t⟩
      rw [hq] at hf
      cases r with
      | ok v =>
        simp only [load, hE, hL, hq]
        rcases hf with h | h | h <;> simp [h]
      | error e =>
        cases hk : isKeyError e with
        | false =>
          simp only [load, hE, hL, hq, hk]
          rcases hf with h | h | h <;> simp [h, hk]
        | true =>
          simp only [load, hE, hL, hq, hk, if_true]
          rw [fetchDirectives_append, fallbackLoad_fetches]
          rcases hf with h | h | h <;> simp [h, hk]

/-- Claim C8: a decoded 2-D image of shape (H, W) is promoted to shape
(H, W, 3) whose row-major data replicates each original value across
the three channel positions: entry (i, j, c) of the result equals
entry (i, j) of the input for every channel c; a decoded 3-D image is
returned without any change. -/
theorem load_img_grayscale_promotion {α : Type} (a : NDArray α) (H W : Nat)
    (hs : a.shape = [H, W]) :
    load_img_rank a = .ok ⟨[H, W, 3], a.data.flatMap (fun v => [v, v, v])⟩ ∧
    (∀ i j c, i < H → j < W → c < 3 →
      (a.data.flatMap (fun v => [v, v, v]))[(i * W + j) * 3 + c]? =
        a.data[i * W + j]?) ∧
    ∀ (b : NDArray α), b.shape.length = 3 → load_img_rank b = .ok b := by
  have h1 : load_img_rank a = .ok ⟨[H, W, 3], a.data.flatMap (fun v => [v, v, v])⟩ := by
    simp [load_img_rank, hs, repeat3LastUnit, expandDims2]
  refine ⟨h1, fun i j c _ _ hc => ?_, fun b hb => ?_⟩
  · have hidx : (i * W + j) * 3 + c = 3 * (i * W + j) + c := by ring
    rw [hidx, flatMap_rep3_getElem _ _ _ hc]
  · simp [load_img_rank, hb]

/-- Witness for C8 at a concrete 1×2 grayscale array and a concrete
3-D array. -/
theorem load_img_grayscale_promotion_witness :
    load_img_rank (⟨[1, 2], [10, 20]⟩ : NDArray Nat) =
      .ok ⟨[1, 2, 3], [10, 10, 10, 20, 20, 20]⟩ ∧
    ([10, 10, 10, 20, 20, 20] : List Nat)[(0 * 2 + 1) * 3 + 2]? = some 20 ∧
    load_img_rank (⟨[1, 1, 2], [4, 5]⟩ : NDArray Nat) = .ok ⟨[1, 1, 2], [4, 5]⟩ := by
  have h := load_img_grayscale_promotion (⟨[1, 2], [10, 20]⟩ : NDArray Nat) 1 2 rfl
  exact ⟨h.1, h.2.1 0 1 2 (by decide) (by decide) (by decide),
    h.2.2 ⟨[1, 1, 2], [4, 5]⟩ rfl⟩

/-- Claim C9: an image decode yielding neither 2 nor 3 dimensions raises the
`NotImplementedError` of `_load_img` with the rank in its message; the
error is not corruption-symptomatic, so a string-location load whose
decoder raises it performs a single retrieval attempt with no purge
retry and propagates it. -/
theorem load_img_unsupported_rank {α : Type} (a : NDArray α)
    (h2 : a.shape.length ≠ 2) (h3 : a.shape.length ≠ 3) :
    (load_img_rank a =
        .error (.notImplError
          (pyFormat rankMessageTemplate [toString a.shape.length])) ∧
      isCorruption
        (.notImplError (pyFormat rankMessageTemplate [toString a.shape.length])) =
        false) ∧
    ∀ (V O : Type) (env : Env V O) (L : LoaderId) (u : String) (opts : O)
      (h : Handle) (msg : String),
      env.bridge (.url u) .useExisting = .ok h →
      env.decode L h opts = .error (.notImplError msg) →
      load_using_loader env L .useExisting opts (.url u) =
        (.error (.notImplError msg),
         [.fetch (.url u) .useExisting, .dec L h]) := by
  refine ⟨⟨by simp [load_img_rank, h2, h3], rfl⟩, ?_⟩
  intro V O env L u opts h msg hb hd
  simp [load_using_loader, hb, hd, isCorruption]

/-- Witness for C9 at a concrete rank-4 array and a concrete stub
environment whose image decoder raises the resulting error. -/
theorem load_img_unsupported_rank_witness :
    load_img_rank (⟨[1, 1, 1, 1], [5]⟩ : NDArray Nat) =
      .error (.notImplError "Loaded image has more dimensions than expected: 4") ∧
    load_using_loader envRank4 .img .useExisting () (.url "a.png") =
      (.error (.notImplError "Loaded image has more dimensions than expected: 4"),
       [.fetch (.url "a.png") .useExisting, .dec .img ⟨"s", 0⟩]) := by
  have h := load_img_unsupported_rank (⟨[1, 1, 1, 1], [5]⟩ : NDArray Nat)
    (by decide) (by decide)
  exact ⟨h.1.1,
    h.2 Nat Unit envRank4 .img "a.png" () ⟨"s", 0⟩
      "Loaded image has more dimensions than expected: 4" rfl rfl⟩

/-- Claim C10: for a location whose tag is not registered, the decoder
options passed by the caller are not forwarded to the fallback image
decode (it runs with the default options), so two load calls that
differ only in their options produce identical results and traces. -/
theorem load_fallback_ignores_options {V O : Type} (env : Env V O) (loc : Location)
    (c : Cache) (o1 o2 : O) (ext : String)
    (hE : get_extension loc = .ok ext)
    (hL : lookupLoader (strLower ext) = none) :
    load env loc c o1 = load env loc c o2 := by
  simp [load, hE, hL]

/-- Witness for C10: an environment whose decoders are
option-sensitive, at an unregistered tag, with the two option values. -/
theorem load_fallback_ignores_options_witness :
    load envOptSensitive (.url "b.bin") .useExisting true =
      load envOptSensitive (.url "b.bin") .useExisting false :=
  load_fallback_ignores_options envOptSensitive (.url "b.bin") .useExisting
    true false ".bin" rfl rfl

end Loading

